import Mathlib

/-!
Verification of the mkdocs_build_plantuml build pipeline
(src/mkdocs_build_plantuml_plugin/plantuml.py).

Python strings are modelled as lists of Unicode code points (`PyStr`),
which is faithful to CPython semantics: a `str` is a sequence of code
points that may include lone surrogates, and `str.encode("utf-8")`
raises on surrogates.  Bytes are modelled as `List Nat` with every
element `< 256`.  The filesystem is modelled as a lookup table from
paths to (mtime, lines); `pathlib` existence checks, `stat` and `open`
are reads of that table.  Exceptions are modelled with `Except`; the
`PyErr` type distinguishes the exception classes the plugin handles
differently (`FileNotFoundError`, `TypeError`, `AttributeError`,
plain `Exception`).
-/

set_option maxRecDepth 4000

namespace PlantUml

/-- A Python string: a list of Unicode code points. -/
abbrev PyStr := List Nat

/-- Code points of a Lean string literal, used to write `PyStr` constants. -/
def pys (s : String) : PyStr := s.data.map Char.toNat

/-- Python regex `\s` for the ASCII range used by the plugin:
space, tab, newline, vertical tab, form feed, carriage return. -/
def wsCp (c : Nat) : Bool :=
  c = 32 || c = 9 || c = 10 || c = 11 || c = 12 || c = 13

/-- Python `str.lstrip()`. -/
def pyLStrip (s : PyStr) : PyStr := s.dropWhile wsCp

/-- Python `str.rstrip()`. -/
def pyRStrip (s : PyStr) : PyStr := (s.reverse.dropWhile wsCp).reverse

/-- Python `str.strip()`. -/
def pyStrip (s : PyStr) : PyStr := pyRStrip (pyLStrip s)

/-- Python `str.startswith(pre)`. -/
def pyStartsWith (pre s : PyStr) : Bool := pre.isPrefixOf s

/-- Python slicing `s[n:]`. -/
def pyDrop (n : Nat) (s : PyStr) : PyStr := s.drop n

/-- Python `str.split("!")` (single-character separator, keeps empty parts). -/
def pySplitBang : PyStr → List PyStr
  | [] => [[]]
  | c :: t =>
    if c = 33 then [] :: pySplitBang t
    else
      match pySplitBang t with
      | h :: r => (c :: h) :: r
      | [] => [[c]]

/-- Helper for `pyReplace`: fuel-indexed left-to-right non-overlapping
substring replacement (fuel bounds the number of consumed characters). -/
def pyReplaceGo (pat rep : PyStr) : Nat → PyStr → PyStr
  | _, [] => []
  | 0, s => s
  | fuel + 1, c :: t =>
    if pat.isPrefixOf (c :: t) then rep ++ pyReplaceGo pat rep fuel ((c :: t).drop pat.length)
    else c :: pyReplaceGo pat rep fuel t

/-- Python `str.replace(pat, rep)` for a non-empty pattern (the plugin
only substitutes the configured theme file names, which are non-empty). -/
def pyReplace (s pat rep : PyStr) : PyStr :=
  if pat = [] then s else pyReplaceGo pat rep s.length s

/-- Python `str.rfind(c)` for a single character: index of the last
occurrence, `none` when absent (Python returns -1). -/
def pyRFind (c : Nat) : PyStr → Option Nat
  | [] => none
  | x :: t =>
    match pyRFind c t with
    | some i => some (i + 1)
    | none => if x = c then some 0 else none

/-- Model of `Path(d) / f` followed by `str`/`resolve`; path
normalization is abstracted away (paths are compared literally). -/
def joinPath (d f : PyStr) : PyStr := d ++ pys "/" ++ f

/-- Model of `Path(p).parent`: the prefix before the last `/`. -/
def parentDir (p : PyStr) : PyStr :=
  match pyRFind 47 p with
  | some i => p.take i
  | none => p

/-! Regex fragments used by `_readIncludeLine`, `_read_incl_sub` and
`preprocess_includes`.  All patterns are anchored (`re.match` with `$`). -/

/-- Regex `\s*$`: only whitespace remains. -/
def allWS : PyStr → Bool
  | [] => true
  | c :: t => wsCp c && allWS t

/-- Continuation of `\S+\s*$` after its first character: more non-space
characters, then only whitespace. -/
def argTailRest : PyStr → Bool
  | [] => true
  | c :: t => if wsCp c then allWS t else argTailRest t

/-- Regex `\s*\S+\s*$`. -/
def spacesArg : PyStr → Bool
  | [] => false
  | c :: t => if wsCp c then spacesArg t else argTailRest t

/-- Regex `\s+\S+\s*$`. -/
def spacesThenArg : PyStr → Bool
  | [] => false
  | c :: t => wsCp c && spacesArg t

/-- Regex `^!includeurl\s+\S+\s*$` (line 319). -/
def matchIncludeUrl (line : PyStr) : Bool :=
  pyStartsWith (pys "!includeurl") line && spacesThenArg (pyDrop 11 line)

/-- Regex `^!includesub\s+\S+\s*$` (line 322). -/
def matchIncludeSub (line : PyStr) : Bool :=
  pyStartsWith (pys "!includesub") line && spacesThenArg (pyDrop 11 line)

/-- Regex `^!include\s+\S+\s*$` (line 348). -/
def matchInclude (line : PyStr) : Bool :=
  pyStartsWith (pys "!include") line && spacesThenArg (pyDrop 8 line)

/-- Consume a literal prefix, returning the rest. -/
def pyDropLit : PyStr → PyStr → Option PyStr
  | [], r => some r
  | _ :: _, [] => none
  | c :: cs, x :: r => if c = x then pyDropLit cs r else none

/-- Regex fragment `NAME\s*$` for a literal (re.escape-d) NAME. -/
def litThenWS (name rest : PyStr) : Bool :=
  match pyDropLit name rest with
  | some r => allWS r
  | none => false

/-- Regex fragment `\s*NAME\s*$` (NAME assumed not to start with
whitespace, which holds for sub names produced by `split("!")`). -/
def spacesLit (name : PyStr) : PyStr → Bool
  | [] => false
  | c :: t => if wsCp c then spacesLit name t else litThenWS name (c :: t)

/-- Regex fragment `\s+NAME\s*$`. -/
def spacesThenLit (name : PyStr) : PyStr → Bool
  | [] => false
  | c :: t => wsCp c && spacesLit name t

/-- Regex `^!startsub\s+NAME\s*$` (line 439). -/
def matchStartSub (name line : PyStr) : Bool :=
  pyStartsWith (pys "!startsub") line && spacesThenLit name (pyDrop 9 line)

/-- Regex `^!endsub\s*$` (line 441). -/
def matchEndSub (line : PyStr) : Bool :=
  pyStartsWith (pys "!endsub") line && allWS (pyDrop 7 line)

/-- Regex `^@enduml\s*$` (line 441). -/
def matchEnduml (line : PyStr) : Bool :=
  pyStartsWith (pys "@enduml") line && allWS (pyDrop 7 line)

/-! The text encoder (`_readFile`, lines 285-292, and the module-level
translation table at lines 25-31).  The external `zlib` library is
modelled per its specification (RFC 1950/1951): a 2-byte header, a
DEFLATE stream — here produced with stored (uncompressed) blocks — and
a 4-byte big-endian Adler-32 trailer.  The byte-exact Huffman output of
`zlib.compress` is outside this repository; the stored-block model
preserves the framing the plugin manipulates (`compressed_str[2:-4]`). -/

/-- Two little-endian bytes of a 16-bit value (DEFLATE stored-block LEN/NLEN). -/
def toLE2 (n : Nat) : List Nat := [n % 256, n / 256 % 256]

/-- Four big-endian bytes of a 32-bit value (zlib Adler-32 trailer). -/
def toBE4 (n : Nat) : List Nat :=
  [n / 16777216 % 256, n / 65536 % 256, n / 256 % 256, n % 256]

/-- Adler-32 checksum (RFC 1950 section 2.2). -/
def adler32 (bs : List Nat) : Nat :=
  let p := bs.foldl
    (fun ab x => ((ab.1 + x) % 65521, (ab.2 + (ab.1 + x) % 65521) % 65521))
    (1, 0)
  p.2 * 65536 + p.1

/-- DEFLATE compressor emitting stored blocks; the fuel (first argument)
bounds the number of non-final blocks and is structural so that the
definition evaluates in the kernel. -/
def deflateGo : Nat → List Nat → List Nat
  | 0, bs => 1 :: (toLE2 bs.length ++ toLE2 (65535 - bs.length) ++ bs)
  | fuel + 1, bs =>
    if bs.length ≤ 65535 then
      1 :: (toLE2 bs.length ++ toLE2 (65535 - bs.length) ++ bs)
    else
      0 :: (toLE2 65535 ++ toLE2 0 ++ (bs.take 65535 ++ deflateGo fuel (bs.drop 65535)))

/-- DEFLATE stream of a byte sequence (stored blocks). -/
def deflateStored (bs : List Nat) : List Nat := deflateGo bs.length bs

/-- DEFLATE decompressor for stored blocks: parses the 1-byte block
header, LEN/NLEN, and the payload; `none` on any malformed input. -/
def inflateGo : Nat → List Nat → Option (List Nat)
  | _, [] => none
  | fuel, b :: l0 :: l1 :: n0 :: n1 :: rest =>
    let len := l0 + 256 * l1
    if n0 + 256 * n1 = 65535 - len then
      if b = 1 then (if rest.length = len then some rest else none)
      else if b = 0 then
        match fuel with
        | 0 => none
        | fuel + 1 =>
          if len ≤ rest.length then
            (inflateGo fuel (rest.drop len)).map (fun t => rest.take len ++ t)
          else none
      else none
    else none
  | _, _ => none

/-- Inflate a stored-block DEFLATE stream. -/
def inflateStored (l : List Nat) : Option (List Nat) := inflateGo l.length l

/-- Model of `zlib.compress`: 2-byte zlib header (CMF/FLG with a valid
header checksum), DEFLATE data, 4-byte Adler-32 trailer. -/
def zlib_compress (bs : List Nat) : List Nat :=
  120 :: 156 :: (deflateStored bs ++ toBE4 (adler32 bs))

/-- Model of `zlib.decompress`: checks the header (CM = 8, header
checksum divisible by 31), inflates, and verifies the Adler-32 trailer. -/
def zlib_decompress : List Nat → Option (List Nat)
  | h1 :: h2 :: rest =>
    if h1 % 16 = 8 ∧ (h1 * 256 + h2) % 31 = 0 then
      match inflateStored (rest.take (rest.length - 4)) with
      | none => none
      | some data =>
        if rest.drop (rest.length - 4) = toBE4 (adler32 data) then some data else none
    else none
  | _ => none

/-- Python slice `compressed_str[2:-4]` (line 287): strip the 2-byte
zlib header and the 4-byte trailer. -/
def sliceStrip (l : List Nat) : List Nat := (l.drop 2).take (l.length - 6)

/-- The standard base64 alphabet `A-Za-z0-9+/` (line 28), as code points. -/
def base64_alphabet : PyStr :=
  pys "ABCDEFGHIJKLMNOPQRSTUVWXYZabcdefghijklmnopqrstuvwxyz0123456789+/"

/-- The PlantUML alphabet `0-9A-Za-z-_` (lines 25-27), as code points. -/
def plantuml_alphabet : PyStr :=
  pys "0123456789ABCDEFGHIJKLMNOPQRSTUVWXYZabcdefghijklmnopqrstuvwxyz-_"

/-- Character of the base64 alphabet at index `i` (`i < 64` in all uses). -/
def bch (i : Nat) : Nat := base64_alphabet.getD i 65

/-- Standard base64 encoding of a byte sequence, with `=` (61) padding. -/
def b64encode : List Nat → PyStr
  | a :: b :: c :: t =>
    bch (a / 4) :: bch (a % 4 * 16 + b / 16) :: bch (b % 16 * 4 + c / 64) :: bch (c % 64) ::
      b64encode t
  | [a, b] => [bch (a / 4), bch (a % 4 * 16 + b / 16), bch (b % 16 * 4), 61]
  | [a] => [bch (a / 4), bch (a % 4 * 16), 61, 61]
  | [] => []

/-- Index of a code point in the base64 alphabet. -/
def b64ix (c : Nat) : Option Nat := base64_alphabet.findIdx? (· == c)

/-- Standard base64 decoding; `none` on any malformed input. -/
def b64decode : PyStr → Option (List Nat)
  | [] => some []
  | c1 :: c2 :: c3 :: c4 :: rest =>
    match b64ix c1, b64ix c2 with
    | some i1, some i2 =>
      if c3 = 61 then
        if c4 = 61 ∧ rest = [] ∧ i2 % 16 = 0 then some [i1 * 4 + i2 / 16] else none
      else
        match b64ix c3 with
        | some i3 =>
          if c4 = 61 then
            if rest = [] ∧ i3 % 4 = 0 then
              some [i1 * 4 + i2 / 16, i2 % 16 * 16 + i3 / 4]
            else none
          else
            match b64ix c4 with
            | some i4 =>
              (b64decode rest).map
                (fun t => (i1 * 4 + i2 / 16) :: (i2 % 16 * 16 + i3 / 4) :: (i3 % 4 * 64 + i4) :: t)
            | none => none
        | none => none
    | _, _ => none
  | _ => none

/-- The `maketrans`-built substitution on one code point (lines 29-31):
a base64 alphabet character maps to the PlantUML alphabet character at
the same index, anything else is unchanged. -/
def translateCp (c : Nat) : Nat :=
  match base64_alphabet.findIdx? (· == c) with
  | some i => plantuml_alphabet.getD i c
  | none => c

/-- `bytes.translate(b64_to_plantuml)` (line 290). -/
def translate (s : PyStr) : PyStr := s.map translateCp

/-- The inverse substitution, from the PlantUML alphabet back to base64. -/
def untranslateCp (c : Nat) : Nat :=
  match plantuml_alphabet.findIdx? (· == c) with
  | some i => base64_alphabet.getD i c
  | none => c

/-- UTF-8 encoding of one code point; `none` for surrogates and
out-of-range values (CPython raises `UnicodeEncodeError` there). -/
def utf8Cp (n : Nat) : Option (List Nat) :=
  if n < 128 then some [n]
  else if n < 2048 then some [192 + n / 64, 128 + n % 64]
  else if n < 55296 then some [224 + n / 4096, 128 + n / 64 % 64, 128 + n % 64]
  else if n < 57344 then none
  else if n < 65536 then some [224 + n / 4096, 128 + n / 64 % 64, 128 + n % 64]
  else if n < 1114112 then
    some [240 + n / 262144, 128 + n / 4096 % 64, 128 + n / 64 % 64, 128 + n % 64]
  else none

/-- Python `str.encode("utf-8")`. -/
def utf8Encode : PyStr → Option (List Nat)
  | [] => some []
  | c :: t =>
    match utf8Cp c, utf8Encode t with
    | some b, some bt => some (b ++ bt)
    | _, _ => none

/-- The token transform of `_readFile` (lines 286-292):
compress, strip header and trailer, base64-encode, translate. -/
def encodeDiagram (bs : List Nat) : PyStr :=
  translate (b64encode (sliceStrip (zlib_compress bs)))

/-- The inverse transform described by the spec: inverse alphabet map,
base64 decode, reconstruct the zlib header and Adler-32 trailer around
the raw DEFLATE block, and decompress. -/
def decodeDiagram (tok : PyStr) : Option (List Nat) :=
  match b64decode (tok.map untranslateCp) with
  | none => none
  | some raw =>
    match inflateStored raw with
    | none => none
    | some data => zlib_decompress (120 :: 156 :: (raw ++ toBE4 (adler32 data)))

/-- The whole encoding step of `_readFile` (lines 285-292) as a fallible
computation: `str.encode("utf-8")` may raise (surrogates), after which
compression and encoding are total. -/
def encodeToken (text : PyStr) : Except PyStr PyStr :=
  match utf8Encode text with
  | none => .error (pys "UnicodeEncodeError: surrogates not allowed")
  | some bs => .ok (encodeDiagram bs)

/-! Data model: configuration, per-diagram descriptor, filesystem,
exceptions, and externally visible actions. -/

/-- The plugin configuration (class `BuildPlantumlPluginConfig`,
lines 34-75), with the defaults from the source. -/
structure PluginConfig where
  render : PyStr := pys "server"
  server : PyStr := pys "https://www.plantuml.com/plantuml"
  disable_ssl_certificate_validation : Bool := false
  bin_path : PyStr := pys "/usr/local/bin/plantuml"
  output_format : PyStr := pys "png"
  allow_multiple_roots : Bool := false
  diagram_root : PyStr := pys "docs/diagrams"
  output_folder : PyStr := pys "out"
  output_in_dir : Bool := false
  input_folder : PyStr := pys "src"
  input_extensions : PyStr := pys ""
  theme_enabled : Bool := false
  theme_folder : PyStr := pys "include/themes/"
  theme_light : PyStr := pys "light.puml"
  theme_dark : PyStr := pys "dark.puml"
  prettify_svg : Bool := false
deriving DecidableEq

/-- The per-diagram descriptor (class `PuElement`, lines 679-695).
Modification times are modelled as naturals. -/
structure PuElement where
  file : PyStr := []
  directory : PyStr := []
  out_dir : PyStr := []
  root_dir : PyStr := []
  img_time : Nat := 0
  img_time_dark : Nat := 0
  inc_time : Nat := 0
  src_time : Nat := 0
  out_file : PyStr := []
  out_file_dark : PyStr := []
  b64encoded : PyStr := []
  concat_file : PyStr := []
  src_file : List PyStr := []
deriving DecidableEq

/-- One file on the modelled filesystem: its mtime and its lines
(as returned by `readlines()`, i.e. with their line terminators). -/
structure FileEntry where
  mtime : Nat := 0
  lines : List PyStr := []
deriving DecidableEq

/-- The filesystem: a finite table from paths to files. -/
structure FileSys where
  files : List (PyStr × FileEntry) := []
deriving DecidableEq

/-- Lookup of a path. -/
def FileSys.find? (fs : FileSys) (p : PyStr) : Option FileEntry :=
  fs.files.lookup p

/-- Model of `Path(p).exists()`. -/
def FileSys.existsPath (fs : FileSys) (p : PyStr) : Bool :=
  (fs.find? p).isSome

/-- Model of `Path(p).stat().st_mtime` wrapped in `try/except` with
fallback 0 (as in `_build_mtimes` and the `local_inc_time` readers). -/
def FileSys.mtimeOr0 (fs : FileSys) (p : PyStr) : Nat :=
  match fs.find? p with
  | some e => e.mtime
  | none => 0

/-- Decidable equality on `Except`, for concrete evaluations. -/
instance {ε α : Type} [DecidableEq ε] [DecidableEq α] : DecidableEq (Except ε α) :=
  fun a b =>
    match a, b with
    | .error x, .error y =>
      if h : x = y then .isTrue (by rw [h])
      else .isFalse (by intro hh; cases hh; exact h rfl)
    | .ok x, .ok y =>
      if h : x = y then .isTrue (by rw [h])
      else .isFalse (by intro hh; cases hh; exact h rfl)
    | .error _, .ok _ => .isFalse (by intro h; cases h)
    | .ok _, .error _ => .isFalse (by intro h; cases h)

/-- Python exception classes the plugin treats differently. -/
inductive PyErr where
  | fnfe (msg : PyStr)
  | typeError (msg : PyStr)
  | attrError (msg : PyStr)
  | exc (msg : PyStr)
deriving DecidableEq

/-- Externally visible steps of one `_convert` call, in order. -/
inductive Action where
  | readPass (dark : Bool)
  | localRender (dark : Bool) (input_from_temp : Bool)
  | serverRequest (url : PyStr)
  | fileWrite (path content : PyStr)
deriving DecidableEq

/-! The include resolver (`preprocess_includes`, `process_includes`,
`_readFile`, `_readFileRecursively`, `_readIncludeLine`,
`_read_incl_line_file`, `_read_incl_sub`, lines 252-454).

The Python functions recurse without a bound (a cyclic include recurses
forever); the model threads a structural fuel argument, decremented at
each descent into an included file, so that `RecursionError` stands for
the diverging executions.  Diagram-state mutations made inside a subtree
that raises are discarded by the model (no claim depends on them). -/

/-- The `!startsub`/`!endsub` extraction loop of `_read_incl_sub`
(lines 434-444): collect the stripped lines strictly between a
`!startsub name` marker and the next `!endsub` or `@enduml` marker. -/
def extractSubGo (name : PyStr) : List PyStr → Bool → List PyStr
  | [], _ => []
  | l :: rest, add =>
    let s := pyStrip l
    if matchStartSub name s then extractSubGo name rest true
    else if matchEndSub s || matchEnduml s then extractSubGo name rest false
    else if add then s :: extractSubGo name rest add
    else extractSubGo name rest add

/-- Extraction of a named sub-block from the lines of a file. -/
def extractSub (lines : List PyStr) (name : PyStr) : List PyStr :=
  extractSubGo name lines false

/-- Local-include resolution (lines 360-371): try the path relative to
the directory of the including file, then relative to the diagram root;
raise `Exception("Include could not be resolved: <line>")` otherwise. -/
def resolve_include (fs : FileSys) (directory root_dir inc_file line : PyStr) :
    Except PyStr PyStr :=
  let p1 := joinPath directory inc_file
  if fs.existsPath p1 then .ok p1
  else
    let p2 := joinPath root_dir inc_file
    if fs.existsPath p2 then .ok p2
    else .error (pys "Include could not be resolved: " ++ line)

/-- `_read_incl_sub` (lines 410-454): record the include mtime, read the
file (raising `FileNotFoundError` when absent) and extract the named
sub-block.  Line 446 then calls `self._readFileRecursively` with five
arguments although the method (line 298) accepts four, so CPython
raises a `TypeError` before any extracted content is used; the model
reproduces that error. -/
def read_incl_sub (fs : FileSys) (d : PuElement) (_temp_file : PyStr) (_dark : Bool)
    (inc_file_abs _sub_name : PyStr) : Except PyErr (PuElement × PyStr) :=
  let t := fs.mtimeOr0 inc_file_abs
  let _d1 := if t > d.inc_time then { d with inc_time := t } else d
  match fs.find? inc_file_abs with
  | none => .error (.fnfe (pys "No such file or directory: " ++ inc_file_abs))
  | some e =>
    let _temp_sub := extractSub e.lines _sub_name
    .error (.typeError
      (pys "_readFileRecursively takes 5 positional arguments but 6 were given"))

/-- `_read_incl_line_file` (lines 378-408): fold the include mtime into
the running maximum, then recursively flatten the included lines.  The
incoming `temp_file` is discarded (line 401 rebinds it), matching the
source. -/
def read_incl_line_file (fs : FileSys)
    (flatten : PuElement → List PyStr → PyStr → Bool → Except PyErr (PuElement × PyStr))
    (d : PuElement) (_temp_file : PyStr) (dark : Bool) (inc_file_abs : PyStr) :
    Except PyErr (PuElement × PyStr) :=
  let t := fs.mtimeOr0 inc_file_abs
  let d1 := if t > d.inc_time then { d with inc_time := t } else d
  match fs.find? inc_file_abs with
  | none => .error (.fnfe (pys "No such file or directory: " ++ inc_file_abs))
  | some e => flatten d1 e.lines (parentDir inc_file_abs) dark

/-- The dark-mode theme substitution applied to an include target
(lines 328-331 and 351-354): in dark mode, occurrences of the light
theme file name are replaced by the dark theme file name. -/
def incTarget (cfg : PluginConfig) (dark : Bool) (f : PyStr) : PyStr :=
  if dark then pyReplace f cfg.theme_light cfg.theme_dark else f

/-- `_readIncludeLine` (lines 315-376).  `flatten` stands for the
recursive `self._readFileRecursively`. -/
def readIncludeLine (cfg : PluginConfig) (fs : FileSys)
    (flatten : PuElement → List PyStr → PyStr → Bool → Except PyErr (PuElement × PyStr))
    (d : PuElement) (line temp_file directory : PyStr) (dark : Bool) :
    Except PyErr (PuElement × PyStr) :=
  if matchIncludeUrl line then .ok (d, temp_file ++ line)
  else if matchIncludeSub line then
    match pySplitBang (pyStrip (pyDrop 11 line)) with
    | [inc_file0, sub_name] =>
      (match read_incl_sub fs d temp_file dark
          (joinPath directory (incTarget cfg dark inc_file0)) sub_name with
       | .ok r => .ok r
       | .error _e1 =>
         match read_incl_sub fs d temp_file dark
             (joinPath d.root_dir (incTarget cfg dark inc_file0)) sub_name with
         | .ok r => .ok r
         | .error e2 => .error e2)
    | _ =>
      .error (.exc (pys "Invalid !includesub syntax. Expected: !includesub <filepath>!<sub_name>"))
  else if matchInclude line then
    if pyStartsWith (pys "http") (incTarget cfg dark (pyRStrip (pyDrop 9 line))) ||
        pyStartsWith (pys "<") (incTarget cfg dark (pyRStrip (pyDrop 9 line))) then
      .ok (d, temp_file ++ line)
    else
      match resolve_include fs directory d.root_dir
          (incTarget cfg dark (pyRStrip (pyDrop 9 line))) line with
      | .ok p =>
        (match read_incl_line_file fs flatten d temp_file dark p with
         | .error (.fnfe _) => .ok (d, temp_file)
         | r => r)
      | .error msg => .error (.exc msg)
  else .error (.exc (pys "Unknown include type: " ++ line))

/-- `preprocess_includes` + `process_includes` (lines 252-262): replace,
in index order, every line whose stripped form starts with `!include`
by the content the handler returns, threading the diagram state. -/
def processIncludes
    (handler : PuElement → PyStr → PyStr → PyStr → Bool → Except PyErr (PuElement × PyStr)) :
    PuElement → List PyStr → PyStr → Bool → Except PyErr (PuElement × List PyStr)
  | d, [], _, _ => .ok (d, [])
  | d, l :: rest, directory, dark =>
    if pyStartsWith (pys "!include") (pyStrip l) then
      match handler d (pyStrip l) [] directory dark with
      | .error e => .error e
      | .ok (d1, content) =>
        match processIncludes handler d1 rest directory dark with
        | .error e => .error e
        | .ok (d2, rs) => .ok (d2, content :: rs)
    else
      match processIncludes handler d rest directory dark with
      | .error e => .error e
      | .ok (d2, rs) => .ok (d2, l :: rs)

/-- `_readFileRecursively` (lines 298-313): process the include lines,
then join everything with `''.join`. -/
def readFileRecursively (cfg : PluginConfig) (fs : FileSys) :
    Nat → PuElement → List PyStr → PyStr → Bool → Except PyErr (PuElement × PyStr)
  | 0, _, _, _, _ =>
    .error (.exc (pys "RecursionError: maximum recursion depth exceeded"))
  | fuel + 1, d, lines, directory, dark =>
    match
      processIncludes
        (readIncludeLine cfg fs
          (fun d1 ls dir dk => readFileRecursively cfg fs fuel d1 ls dir dk))
        d lines directory dark
    with
    | .error e => .error e
    | .ok (d1, ls) => .ok (d1, ls.flatten)

/-- `_readFile` (lines 264-296): flatten a copy of the source lines,
then compress and encode inside `try/except` — on any encoding error
the token degrades to the empty string and the function returns
normally (lines 294-296). -/
def readFile (cfg : PluginConfig) (fs : FileSys) (fuel : Nat) (d : PuElement)
    (dark : Bool) : Except PyErr PuElement :=
  match readFileRecursively cfg fs fuel d d.src_file d.directory dark with
  | .error e => .error e
  | .ok (d1, temp_file) =>
    match encodeToken temp_file with
    | .ok tok => .ok { d1 with b64encoded := tok, concat_file := temp_file }
    | .error _ => .ok { d1 with b64encoded := [] }

/-! Output naming, staleness and rendering
(`_search_start_tag`, `_build_out_filename`, `_build_mtimes`,
`_convert`, `_call_server`, `on_pre_build`). -/

/-- Python `line.split(maxsplit=1)` on a string: skip leading
whitespace, take the first token, skip the separator run, keep the
remainder verbatim. -/
def pySplitFirstWS (s : PyStr) : List PyStr :=
  let t := s.dropWhile wsCp
  if t = [] then []
  else
    let tok := t.takeWhile (fun c => !wsCp c)
    let rest := (t.dropWhile (fun c => !wsCp c)).dropWhile wsCp
    if rest = [] then [tok] else [tok, rest]

/-- Scanning loop of `_search_start_tag` (lines 215-224). -/
def search_start_tag_go (cfg : PluginConfig) (outDir : PyStr) (d : PuElement) :
    List PyStr → Option PuElement
  | [] => none
  | l :: rest =>
    if pyStartsWith (pys "@startuml") (pyStrip l) then
      match pySplitFirstWS (pyStrip l) with
      | [_, out_filename] =>
        some { d with
          out_file := joinPath outDir (out_filename ++ pys "." ++ cfg.output_format),
          out_file_dark :=
            joinPath outDir (out_filename ++ pys "_dark." ++ cfg.output_format) }
      | _ => search_start_tag_go cfg outDir d rest
    else search_start_tag_go cfg outDir d rest

/-- `_search_start_tag` (lines 202-224): `some` with the output paths
set when a `@startuml <filename>` line is found, `none` otherwise. -/
def search_start_tag (cfg : PluginConfig) (d : PuElement) : Option PuElement :=
  search_start_tag_go cfg d.out_dir d d.src_file

/-- `_build_out_filename` (lines 456-478): derive the output names from
the source file name and the configured output format. -/
def build_out_filename (cfg : PluginConfig) (d : PuElement) : PuElement :=
  let d1 :=
    match pyRFind 46 d.file with
    | some i =>
      { d with
        out_file := d.file.take (i + 1) ++ cfg.output_format,
        out_file_dark := d.file.take i ++ pys "_dark." ++ cfg.output_format }
    | none => d
  { d1 with
    out_file := joinPath d1.out_dir d1.out_file,
    out_file_dark := joinPath d1.out_dir d1.out_file_dark }

/-- `_build_mtimes` (lines 226-250): output mtimes with `try/except`
fallback 0 (a missing output counts as mtime 0), source mtime, and the
include-time accumulator reset to 0. -/
def build_mtimes (fs : FileSys) (d : PuElement) : PuElement :=
  { d with
    img_time := fs.mtimeOr0 d.out_file,
    img_time_dark := fs.mtimeOr0 d.out_file_dark,
    src_time := fs.mtimeOr0 (joinPath d.directory d.file),
    inc_time := 0 }

/-- The staleness decision of `_convert` (lines 491-500): regenerate
when the output predates the source or an include is newer than the
output, per theme variant. -/
def needs_conversion (d : PuElement) (dark : Bool) : Bool :=
  if dark then
    decide (d.img_time_dark < d.src_time) || decide (d.inc_time > d.img_time_dark)
  else
    decide (d.img_time < d.src_time) || decide (d.inc_time > d.img_time)

/-- The SVG post-processing pattern used at lines 546-556, 562-571 and
620-629: applied exactly when `output_format == "svg"`; a failure of
the (external, here parameterized) pretty-printer falls back to the raw
content. -/
def svg_postprocess (cfg : PluginConfig) (pp : PyStr → Except PyStr PyStr)
    (content : PyStr) : PyStr :=
  if cfg.output_format = pys "svg" then
    match pp content with
    | .ok f => f
    | .error _ => content
  else content

/-- The request URL built by `_call_server` (lines 597-603). -/
def server_url (cfg : PluginConfig) (d : PuElement) : PyStr :=
  cfg.server ++ pys "/" ++ cfg.output_format ++ pys "/" ++ d.b64encoded

/-- `_call_server` (lines 578-639), with the HTTP transaction abstracted
as its outcome `resp url = error msg | ok (status, body)`.  A transport
exception is re-raised (lines 613-615); a non-200 status is logged and
the function returns with no write (lines 610-612); on a 200 status the
body (pretty-printed when the format is svg) is written to the output
path.  The Python function returns `None` on every path; the returned
action list records its externally visible effects. -/
def call_server (cfg : PluginConfig) (resp : PyStr → Except PyStr (Nat × PyStr))
    (pp : PyStr → Except PyStr PyStr) (d : PuElement) (out_file : PyStr) :
    Except PyErr (List Action) :=
  let url := server_url cfg d
  match resp url with
  | .error e => .error (.exc e)
  | .ok (status, content) =>
    if status = 200 then
      .ok [.serverRequest url,
           .fileWrite (joinPath d.out_dir out_file) (svg_postprocess cfg pp content)]
    else .ok [.serverRequest url]

/-- `_convert` (lines 480-575).  `resp` abstracts the HTTP transport,
`pp` the external pretty-printer, and `localGen` the content of the
single file the external local renderer leaves in the scratch directory
(`none` models zero generated files, a `RuntimeError`).  The result is
the list of externally visible actions plus the exception `_convert`
raises, if any.  In server mode `content` is the `None` returned by
`_call_server`, so `content.decode("utf-8")` (lines 565-571) raises an
`AttributeError` whenever a conversion is attempted. -/
def convert (cfg : PluginConfig) (resp : PyStr → Except PyStr (Nat × PyStr))
    (pp : PyStr → Except PyStr PyStr) (localGen : Option PyStr)
    (d : PuElement) (dark : Bool) : List Action × Option PyErr :=
  if needs_conversion d dark then
    if cfg.render = pys "local" then
      match localGen with
      | none =>
        ([.localRender dark cfg.theme_enabled],
         some (.exc (pys "No files were generated by PlantUML")))
      | some gen =>
        let out := if dark then d.out_file_dark else d.out_file
        ([.localRender dark cfg.theme_enabled,
          .fileWrite out (svg_postprocess cfg pp gen)], none)
    else
      let out := if dark then d.out_file_dark else d.out_file
      match call_server cfg resp pp d out with
      | .error e => ([], some e)
      | .ok acts =>
        (acts, some (.attrError (pys "NoneType object has no attribute decode")))
  else ([], none)

/-- The two unconditional theme passes of `on_pre_build`
(lines 142-152): `_readFile(d, False)`, `_convert(d)`,
`_readFile(d, True)`, `_convert(d, True)` — there is no
`theme_enabled` check around the dark pass. -/
def runPasses (cfg : PluginConfig) (fs : FileSys)
    (resp : PyStr → Except PyStr (Nat × PyStr)) (pp : PyStr → Except PyStr PyStr)
    (localGen : Option PyStr) (fuel : Nat) (d : PuElement) :
    Except PyErr (PuElement × List Action) :=
  match readFile cfg fs fuel d false with
  | .error e => .error e
  | .ok d1 =>
    match convert cfg resp pp localGen d1 false with
    | (_, some e) => .error e
    | (a1, none) =>
      match readFile cfg fs fuel d1 true with
      | .error e => .error e
      | .ok d2 =>
        match convert cfg resp pp localGen d2 true with
        | (_, some e) => .error e
        | (a2, none) =>
          .ok (d2, Action.readPass false :: a1 ++ Action.readPass true :: a2)

/-- The per-diagram body of `on_pre_build` (lines 122-152): read the
source lines, derive the output names, build the mtimes, then run both
theme passes.  An exception raised anywhere aborts the diagram (and,
absent any handler in `on_pre_build`, the whole batch). -/
def processDiagram (cfg : PluginConfig) (fs : FileSys)
    (resp : PyStr → Except PyStr (Nat × PyStr)) (pp : PyStr → Except PyStr PyStr)
    (localGen : Option PyStr) (fuel : Nat) (d0 : PuElement) :
    Except PyErr (PuElement × List Action) :=
  match fs.find? (joinPath d0.directory d0.file) with
  | none =>
    .error (.fnfe (pys "No such file or directory: " ++ joinPath d0.directory d0.file))
  | some entry =>
    let d := { d0 with src_file := entry.lines }
    let d :=
      match search_start_tag cfg d with
      | some d1 => d1
      | none => build_out_filename cfg d
    runPasses cfg fs resp pp localGen fuel (build_mtimes fs d)

/-- The diagram loop of `on_pre_build` (lines 122-152): diagrams are
processed in order with no per-diagram exception handler, so the first
exception aborts the remainder of the batch. -/
def processBatch (cfg : PluginConfig) (fs : FileSys)
    (resp : PyStr → Except PyStr (Nat × PyStr)) (pp : PyStr → Except PyStr PyStr)
    (localGen : Option PyStr) (fuel : Nat) :
    List PuElement → Except PyErr (List (PuElement × List Action))
  | [] => .ok []
  | d :: rest =>
    match processDiagram cfg fs resp pp localGen fuel d with
    | .error e => .error e
    | .ok r =>
      match processBatch cfg fs resp pp localGen fuel rest with
      | .error e => .error e
      | .ok rs => .ok (r :: rs)

/-! Helper lemmas for the encoder roundtrip (claim C2). -/

/-- A descriptor carrying only modification times, for concrete
staleness instances. -/
def timesOnly (img imgd src inc : Nat) : PuElement :=
  { img_time := img, img_time_dark := imgd, src_time := src, inc_time := inc }

/-! Shared concrete fixtures for witnesses and counterexamples. -/

/-- A filesystem with a well-formed diagram, a sub-include file present
under both candidate directories, and a diagram with a malformed
`!includesub` directive. -/
def fsDemo : FileSys := ⟨[
  (pys "dsrc/a.puml",
    { mtime := 100, lines := [pys "@startuml\n", pys "A -> B\n", pys "@enduml\n"] }),
  (pys "dsrc/inc.puml",
    { mtime := 7, lines := [pys "!startsub X\n", pys "alpha\n", pys "!endsub\n"] }),
  (pys "root/inc.puml",
    { mtime := 8, lines := [pys "!startsub X\n", pys "alpha\n", pys "!endsub\n"] }),
  (pys "dsrc/bad.puml",
    { mtime := 5, lines := [pys "@startuml\n", pys "!includesub foo.puml\n", pys "@enduml\n"] }),
  (pys "dsrc/s.puml", { mtime := 3, lines := [[55296]] })
]⟩

/-- Descriptor for the well-formed diagram. -/
def dGoodDemo : PuElement :=
  { file := pys "a.puml", directory := pys "dsrc", root_dir := pys "root",
    out_dir := pys "o" }

/-- Descriptor for the diagram with the malformed directive. -/
def dBadDemo : PuElement :=
  { file := pys "bad.puml", directory := pys "dsrc", root_dir := pys "root",
    out_dir := pys "o" }

/-- A local-render configuration with themes disabled (the defaults). -/
def cfgLocalDemo : PluginConfig := { render := pys "local" }

/-- A transport that is never consulted (local render mode). -/
def respUnused : PyStr → Except PyStr (Nat × PyStr) := fun _ => .error (pys "unused")

/-- A pretty-printer that succeeds with its input. -/
def ppOk : PyStr → Except PyStr PyStr := fun s => .ok s

/-- A flatten continuation that is never consulted. -/
def flattenUnused : PuElement → List PyStr → PyStr → Bool → Except PyErr (PuElement × PyStr) :=
  fun d _ _ _ => .ok (d, [])

/-- Descriptor whose source lines contain a lone surrogate, making
`str.encode("utf-8")` raise during `_readFile`. -/
def dSurDemo : PuElement :=
  { file := pys "s.puml", directory := pys "dsrc", src_file := [[55296]] }

/-- A stale descriptor for server-mode rendering (missing outputs,
positive source mtime, a fixed token). -/
def dStaleDemo : PuElement :=
  { out_file := pys "o/a.png", out_file_dark := pys "o/a_dark.png",
    out_dir := pys "o", src_time := 5, b64encoded := pys "T" }

/-- A server-mode configuration with png output. -/
def cfgServerDemo : PluginConfig :=
  { render := pys "server", server := pys "S", output_format := pys "png" }

/-- A transport whose GET always returns HTTP status 500. -/
def resp500Demo : PyStr → Except PyStr (Nat × PyStr) := fun _ => .ok (500, [])

/-- A server-mode configuration with svg output and `prettify_svg` off. -/
def cfgSvgDemo : PluginConfig :=
  { render := pys "server", server := pys "S", output_format := pys "svg",
    prettify_svg := false }

/-- A pretty-printer that rewrites any content to a fixed value. -/
def ppPretty : PyStr → Except PyStr PyStr := fun _ => .ok (pys "PRETTY")

/-- A pretty-printer that always fails. -/
def ppFail : PyStr → Except PyStr PyStr := fun _ => .error (pys "parse error")

/-- Descriptor for the surrogate-line diagram discovered from disk. -/
def dSrcSurDemo : PuElement :=
  { file := pys "s.puml", directory := pys "dsrc", out_dir := pys "o" }

/-- The trace of the full run over the surrogate diagram. -/
def trSurDemo : List Action :=
  [Action.readPass false, Action.localRender false false,
   Action.fileWrite (pys "o/s.png") (pys "PNG"),
   Action.readPass true, Action.localRender true false,
   Action.fileWrite (pys "o/s_dark.png") (pys "PNG")]

/-- The descriptor state after both passes over the surrogate diagram. -/
def d2SurDemo : PuElement :=
  { file := pys "s.puml", directory := pys "dsrc", out_dir := pys "o",
    src_time := 3, out_file := pys "o/s.png", out_file_dark := pys "o/s_dark.png",
    src_file := [[55296]] }

/-- Stored-block inflation undoes stored-block deflation, for any inflate
fuel at least the deflate fuel. -/
theorem inflateGo_deflateGo :
    ∀ fd fi (bs : List Nat), bs.length ≤ 65535 * fd + 65535 → fd ≤ fi →
      inflateGo fi (deflateGo fd bs) = some bs := by
  intro fd
  induction fd with
  | zero =>
    intro fi bs hlen _
    simp only [Nat.mul_zero, Nat.zero_add] at hlen
    simp only [deflateGo, toLE2, List.cons_append, List.nil_append]
    cases fi with
    | zero =>
      rw [inflateGo.eq_2, if_pos (by omega), if_pos rfl, if_pos (by omega)]
    | succ fi =>
      rw [inflateGo.eq_3, if_pos (by omega), if_pos rfl, if_pos (by omega)]
  | succ fd ih =>
    intro fi bs hlen hfi
    by_cases hshort : bs.length ≤ 65535
    · simp only [deflateGo, if_pos hshort, toLE2, List.cons_append, List.nil_append]
      cases fi with
      | zero =>
        rw [inflateGo.eq_2, if_pos (by omega), if_pos rfl, if_pos (by omega)]
      | succ fi =>
        rw [inflateGo.eq_3, if_pos (by omega), if_pos rfl, if_pos (by omega)]
    · match fi, hfi with
      | fi + 1, hfi =>
        have hta : (bs.take 65535).length = 65535 := by
          simp [List.length_take]; omega
        simp only [deflateGo, if_neg hshort, toLE2, List.cons_append, List.nil_append]
        rw [inflateGo.eq_3, if_pos (by omega)]
        have hb1 : (0 : Nat) ≠ 1 := by omega
        rw [if_neg hb1, if_pos rfl]
        have hrest :
            255 + 256 * 255 ≤ (bs.take 65535 ++ deflateGo fd (bs.drop 65535)).length := by
          simp only [List.length_append, hta]; omega
        rw [if_pos hrest]
        have hdrop :
            (bs.take 65535 ++ deflateGo fd (bs.drop 65535)).drop (255 + 256 * 255) =
              deflateGo fd (bs.drop 65535) := by
          have h5 : (255 + 256 * 255) = (bs.take 65535).length := by omega
          rw [h5, List.drop_left]
        have htake :
            (bs.take 65535 ++ deflateGo fd (bs.drop 65535)).take (255 + 256 * 255) =
              bs.take 65535 := by
          have h5 : (255 + 256 * 255) = (bs.take 65535).length := by omega
          rw [h5, List.take_left]
        rw [hdrop, htake,
          ih fi (bs.drop 65535) (by simp only [List.length_drop]; omega) (by omega)]
        simp [List.take_append_drop]

/-- The deflate output is at least as long as its input. -/
theorem length_deflateGo_ge :
    ∀ fd (bs : List Nat), bs.length ≤ (deflateGo fd bs).length := by
  intro fd
  induction fd with
  | zero =>
    intro bs
    simp only [deflateGo, toLE2, List.cons_append, List.nil_append, List.length_cons,
      List.length_append]
    omega
  | succ fd ih =>
    intro bs
    by_cases hshort : bs.length ≤ 65535
    · simp only [deflateGo, if_pos hshort, toLE2, List.cons_append, List.nil_append,
        List.length_cons, List.length_append]
      omega
    · have h5 := ih (bs.drop 65535)
      simp only [deflateGo, if_neg hshort, toLE2, List.length_cons, List.length_append,
        List.length_take]
      simp only [List.length_drop] at h5
      omega

/-- Roundtrip of the stored-block DEFLATE model. -/
theorem inflate_deflate (bs : List Nat) : inflateStored (deflateStored bs) = some bs := by
  unfold inflateStored deflateStored
  exact inflateGo_deflateGo bs.length (deflateGo bs.length bs).length bs
    (by omega) (length_deflateGo_ge bs.length bs)

/-- Stripping `[2:-4]` from the zlib stream recovers the DEFLATE block. -/
theorem sliceStrip_zlib (bs : List Nat) :
    sliceStrip (zlib_compress bs) = deflateStored bs := by
  unfold sliceStrip zlib_compress
  have h4 : (toBE4 (adler32 bs)).length = 4 := by simp [toBE4]
  simp only [List.drop_succ_cons, List.drop_zero, List.length_cons, List.length_append, h4]
  have h5 : (deflateStored bs).length + 4 + 1 + 1 - 6 = (deflateStored bs).length := by omega
  rw [h5, List.take_left]

/-- Every byte of the deflate stream is below 256 when the input bytes are. -/
theorem deflateGo_lt :
    ∀ fd (bs : List Nat), (∀ b ∈ bs, b < 256) → ∀ b ∈ deflateGo fd bs, b < 256 := by
  intro fd
  induction fd with
  | zero =>
    intro bs h b hb
    simp only [deflateGo, toLE2, List.cons_append, List.nil_append, List.mem_cons] at hb
    rcases hb with h1 | h1 | h1 | h1 | h1 | h1
    · omega
    · omega
    · omega
    · omega
    · omega
    · exact h b h1
  | succ fd ih =>
    intro bs h b hb
    by_cases hshort : bs.length ≤ 65535
    · simp only [deflateGo, if_pos hshort, toLE2, List.cons_append, List.nil_append,
        List.mem_cons] at hb
      rcases hb with h1 | h1 | h1 | h1 | h1 | h1
      · omega
      · omega
      · omega
      · omega
      · omega
      · exact h b h1
    · simp only [deflateGo, if_neg hshort, toLE2, List.cons_append, List.nil_append,
        List.mem_cons, List.mem_append] at hb
      rcases hb with h1 | h1 | h1 | h1 | h1 | h1 | h1
      · omega
      · omega
      · omega
      · omega
      · omega
      · exact h b (List.mem_of_mem_take h1)
      · exact ih (bs.drop 65535) (fun x hx => h x (List.mem_of_mem_drop hx)) b h1

/-- Index lookup is left-inverse to indexing on the base64 alphabet. -/
theorem b64ix_bch : ∀ i, i < 64 → b64ix (bch i) = some i := by decide

/-- The padding character is not in the base64 alphabet. -/
theorem b64ix_61 : b64ix 61 = none := by decide

/-- Alphabet characters differ from the padding character. -/
theorem bch_ne_61 (i : Nat) (h : i < 64) : bch i ≠ 61 := by
  intro he
  have h5 := b64ix_bch i h
  rw [he, b64ix_61] at h5
  cases h5

/-- Base64 decoding undoes base64 encoding on byte sequences. -/
theorem b64decode_b64encode :
    ∀ bs : List Nat, (∀ b ∈ bs, b < 256) → b64decode (b64encode bs) = some bs
  | [], _ => rfl
  | [a], h => by
    have ha : a < 256 := h a (by simp)
    have q1 : b64ix (bch (a / 4)) = some (a / 4) := b64ix_bch _ (by omega)
    have q2 : b64ix (bch (a % 4 * 16)) = some (a % 4 * 16) := b64ix_bch _ (by omega)
    have p1 : a % 4 * 16 % 16 = 0 := by omega
    have e1 : a / 4 * 4 + a % 4 * 16 / 16 = a := by omega
    simp only [b64encode, b64decode]
    simp [q1, q2, p1, e1]
    all_goals omega
  | [a, b], h => by
    have ha : a < 256 := h a (by simp)
    have hb : b < 256 := h b (by simp)
    have q1 : b64ix (bch (a / 4)) = some (a / 4) := b64ix_bch _ (by omega)
    have q2 : b64ix (bch (a % 4 * 16 + b / 16)) = some (a % 4 * 16 + b / 16) :=
      b64ix_bch _ (by omega)
    have q3 : b64ix (bch (b % 16 * 4)) = some (b % 16 * 4) := b64ix_bch _ (by omega)
    have n3 : bch (b % 16 * 4) ≠ 61 := bch_ne_61 _ (by omega)
    have p1 : b % 16 * 4 % 4 = 0 := by omega
    have e1 : a / 4 * 4 + (a % 4 * 16 + b / 16) / 16 = a := by omega
    have e2 : (a % 4 * 16 + b / 16) % 16 * 16 + b % 16 * 4 / 4 = b := by omega
    simp only [b64encode, b64decode]
    simp [q1, q2, q3, n3, p1, e1, e2]
    all_goals omega
  | [a, b, c], h => by
    have ha : a < 256 := h a (by simp)
    have hb : b < 256 := h b (by simp)
    have hc : c < 256 := h c (by simp)
    have q1 : b64ix (bch (a / 4)) = some (a / 4) := b64ix_bch _ (by omega)
    have q2 : b64ix (bch (a % 4 * 16 + b / 16)) = some (a % 4 * 16 + b / 16) :=
      b64ix_bch _ (by omega)
    have q3 : b64ix (bch (b % 16 * 4 + c / 64)) = some (b % 16 * 4 + c / 64) :=
      b64ix_bch _ (by omega)
    have q4 : b64ix (bch (c % 64)) = some (c % 64) := b64ix_bch _ (by omega)
    have n3 : bch (b % 16 * 4 + c / 64) ≠ 61 := bch_ne_61 _ (by omega)
    have n4 : bch (c % 64) ≠ 61 := bch_ne_61 _ (by omega)
    have e1 : a / 4 * 4 + (a % 4 * 16 + b / 16) / 16 = a := by omega
    have e2 : (a % 4 * 16 + b / 16) % 16 * 16 + (b % 16 * 4 + c / 64) / 4 = b := by omega
    have e3 : (b % 16 * 4 + c / 64) % 4 * 64 + c % 64 = c := by omega
    simp only [b64encode, b64decode]
    simp [q1, q2, q3, q4, n3, n4, e1, e2, e3]
  | a :: b :: c :: d :: t, h => by
    have ha : a < 256 := h a (by simp)
    have hb : b < 256 := h b (by simp)
    have hc : c < 256 := h c (by simp)
    have ih := b64decode_b64encode (d :: t)
      (fun x hx => h x (by simp only [List.mem_cons] at hx ⊢; tauto))
    have q1 : b64ix (bch (a / 4)) = some (a / 4) := b64ix_bch _ (by omega)
    have q2 : b64ix (bch (a % 4 * 16 + b / 16)) = some (a % 4 * 16 + b / 16) :=
      b64ix_bch _ (by omega)
    have q3 : b64ix (bch (b % 16 * 4 + c / 64)) = some (b % 16 * 4 + c / 64) :=
      b64ix_bch _ (by omega)
    have q4 : b64ix (bch (c % 64)) = some (c % 64) := b64ix_bch _ (by omega)
    have n3 : bch (b % 16 * 4 + c / 64) ≠ 61 := bch_ne_61 _ (by omega)
    have n4 : bch (c % 64) ≠ 61 := bch_ne_61 _ (by omega)
    have e1 : a / 4 * 4 + (a % 4 * 16 + b / 16) / 16 = a := by omega
    have e2 : (a % 4 * 16 + b / 16) % 16 * 16 + (b % 16 * 4 + c / 64) / 4 = b := by omega
    have e3 : (b % 16 * 4 + c / 64) % 4 * 64 + c % 64 = c := by omega
    simp only [b64encode]
    rw [b64decode]
    simp [q1, q2, q3, q4, n3, n4, e1, e2, e3, ih]

/-- The alphabet substitution is undone by the inverse substitution on
base64 alphabet characters. -/
theorem untr_tr_bch : ∀ i, i < 64 → untranslateCp (translateCp (bch i)) = bch i := by
  decide

/-- The padding character passes through both substitutions unchanged. -/
theorem untr_tr_61 : untranslateCp (translateCp 61) = 61 := by decide

/-- Every character emitted by the base64 encoder survives the
translate/untranslate roundtrip. -/
theorem b64encode_good :
    ∀ bs : List Nat, (∀ b ∈ bs, b < 256) →
      ∀ c ∈ b64encode bs, untranslateCp (translateCp c) = c
  | [], _ => by intro c hc; cases hc
  | [a], h => by
    have ha : a < 256 := h a (by simp)
    intro x hx
    simp only [b64encode, List.mem_cons, List.not_mem_nil, or_false] at hx
    rcases hx with h1 | h1 | h1 | h1 <;> subst h1
    · exact untr_tr_bch _ (by omega)
    · exact untr_tr_bch _ (by omega)
    · exact untr_tr_61
    · exact untr_tr_61
  | [a, b], h => by
    have ha : a < 256 := h a (by simp)
    have hb : b < 256 := h b (by simp)
    intro x hx
    simp only [b64encode, List.mem_cons, List.not_mem_nil, or_false] at hx
    rcases hx with h1 | h1 | h1 | h1 <;> subst h1
    · exact untr_tr_bch _ (by omega)
    · exact untr_tr_bch _ (by omega)
    · exact untr_tr_bch _ (by omega)
    · exact untr_tr_61
  | [a, b, c], h => by
    have ha : a < 256 := h a (by simp)
    have hb : b < 256 := h b (by simp)
    have hc : c < 256 := h c (by simp)
    intro x hx
    simp only [b64encode, List.mem_cons, List.not_mem_nil, or_false] at hx
    rcases hx with h1 | h1 | h1 | h1 <;> subst h1
    · exact untr_tr_bch _ (by omega)
    · exact untr_tr_bch _ (by omega)
    · exact untr_tr_bch _ (by omega)
    · exact untr_tr_bch _ (by omega)
  | a :: b :: c :: d :: t, h => by
    have ha : a < 256 := h a (by simp)
    have hb : b < 256 := h b (by simp)
    have hc : c < 256 := h c (by simp)
    have ih := b64encode_good (d :: t)
      (fun x hx => h x (by simp only [List.mem_cons] at hx ⊢; tauto))
    intro x hx
    simp only [b64encode, List.mem_cons] at hx
    rcases hx with h1 | h1 | h1 | h1 | h1
    · subst h1; exact untr_tr_bch _ (by omega)
    · subst h1; exact untr_tr_bch _ (by omega)
    · subst h1; exact untr_tr_bch _ (by omega)
    · subst h1; exact untr_tr_bch _ (by omega)
    · exact ih x h1

/-- Applying the inverse substitution to the translated token recovers
the base64 text. -/
theorem untranslate_translate (bs : List Nat) (h : ∀ b ∈ bs, b < 256) :
    (translate (b64encode bs)).map untranslateCp = b64encode bs := by
  unfold translate
  rw [List.map_map]
  calc (b64encode bs).map (untranslateCp ∘ translateCp)
      = (b64encode bs).map id :=
        List.map_congr_left (fun c hcm => b64encode_good bs h c hcm)
    _ = b64encode bs := List.map_id _

/-- Reconstructing the zlib header and Adler-32 trailer around the raw
DEFLATE block yields a stream that decompresses to the original bytes. -/
theorem zlib_decompress_reconstruct (bs : List Nat) :
    zlib_decompress (120 :: 156 :: (deflateStored bs ++ toBE4 (adler32 bs))) = some bs := by
  have h4 : (toBE4 (adler32 bs)).length = 4 := by simp [toBE4]
  have hl : (deflateStored bs ++ toBE4 (adler32 bs)).length - 4 = (deflateStored bs).length := by
    simp [List.length_append, h4]
  rw [zlib_decompress, if_pos (by norm_num), hl, List.take_left, inflate_deflate,
    List.drop_left]
  simp

/-- C2.  For every byte sequence (in particular the UTF-8 encoding of
any flattened source text), the encoder transform of `_readFile`
(deflate-compress, strip the 2-byte header and 4-byte trailer via
`[2:-4]`, base64-encode, positionally translate `A-Za-z0-9+/` to
`0-9A-Za-z-_`) is inverted exactly by the inverse alphabet map, base64
decoding, reconstruction of the deflate header/trailer, and inflation. -/
theorem claim2_encoder_roundtrip (bs : List Nat) (h : ∀ b ∈ bs, b < 256) :
    decodeDiagram (encodeDiagram bs) = some bs := by
  have hD : ∀ b ∈ deflateStored bs, b < 256 := deflateGo_lt bs.length bs h
  simp only [encodeDiagram, decodeDiagram, sliceStrip_zlib, untranslate_translate _ hD,
    b64decode_b64encode _ hD, inflate_deflate]
  exact zlib_decompress_reconstruct bs

/-- Witness for C2 at the UTF-8 bytes of a concrete diagram text. -/
theorem claim2_encoder_roundtrip_witness :
    (∀ b ∈ pys "@startuml\nAlice->Bob\n@enduml\n", b < 256) ∧
      decodeDiagram (encodeDiagram (pys "@startuml\nAlice->Bob\n@enduml\n")) =
        some (pys "@startuml\nAlice->Bob\n@enduml\n") :=
  ⟨by decide, claim2_encoder_roundtrip _ (by decide)⟩

/-- C1.  For every diagram and each theme variant, the staleness
decision of `_convert` is exactly: regenerate when
`output_mtime < source_mtime` or `include_mtime > output_mtime`;
`_build_mtimes` makes a missing output file count as `output_mtime = 0`
(hence stale whenever the source has a positive mtime); and on the
concrete instances, `(output, source, include) = (100, 50, 0)` gives no
regeneration while `(100, 50, 150)` requires regeneration. -/
theorem claim1_staleness_rule :
    ∀ (d : PuElement) (dark : Bool) (fs : FileSys) (d0 : PuElement),
      (needs_conversion d dark = true ↔
        ((if dark then d.img_time_dark else d.img_time) < d.src_time ∨
          d.inc_time > (if dark then d.img_time_dark else d.img_time))) ∧
      (fs.existsPath d0.out_file = false → (build_mtimes fs d0).img_time = 0) ∧
      (fs.existsPath d0.out_file_dark = false → (build_mtimes fs d0).img_time_dark = 0) ∧
      (∀ src inc : Nat, 0 < src →
        needs_conversion (timesOnly 0 0 src inc) dark = true) ∧
      needs_conversion (timesOnly 100 100 50 0) dark = false ∧
      needs_conversion (timesOnly 100 100 50 150) dark = true := by
  intro d dark fs d0
  refine ⟨?_, ?_, ?_, ?_, ?_, ?_⟩
  · cases dark <;> simp [needs_conversion]
  · intro h
    simp only [FileSys.existsPath, Option.isSome] at h
    simp only [build_mtimes, FileSys.mtimeOr0]
    cases hf : fs.find? d0.out_file with
    | none => rfl
    | some e => rw [hf] at h; cases h
  · intro h
    simp only [FileSys.existsPath, Option.isSome] at h
    simp only [build_mtimes, FileSys.mtimeOr0]
    cases hf : fs.find? d0.out_file_dark with
    | none => rfl
    | some e => rw [hf] at h; cases h
  · intro src inc hsrc
    cases dark <;> simp [needs_conversion, timesOnly] <;> omega
  · cases dark <;> decide
  · cases dark <;> decide

/-- Witness for C1: a missing output file yields `img_time = 0` and a
stale decision for a source with positive mtime. -/
theorem claim1_staleness_rule_witness :
    (FileSys.existsPath ⟨[]⟩ (PuElement.out_file { out_file := pys "o/a.png" }) = false) ∧
      (build_mtimes ⟨[]⟩ { out_file := pys "o/a.png" }).img_time = 0 ∧
      needs_conversion (timesOnly 0 0 7 0) false = true :=
  ⟨by decide,
   (claim1_staleness_rule { } false ⟨[]⟩ { out_file := pys "o/a.png" }).2.1 (by decide),
   (claim1_staleness_rule { } false ⟨[]⟩ { out_file := pys "o/a.png" }).2.2.2.1 7 0
     (by decide)⟩

/-- C5.  For every `!include <target>` directive on a local file (no
URL scheme, no angle-bracket library reference), resolution tries the
path relative to the including file before the path relative to the
diagram root, and fails with an error naming the offending line when
neither exists; and `_readIncludeLine` routes such directives through
exactly this resolution, propagating the failure. -/
theorem claim5_include_resolution_order :
    ∀ (cfg : PluginConfig) (fs : FileSys)
      (flatten : PuElement → List PyStr → PyStr → Bool → Except PyErr (PuElement × PyStr))
      (d : PuElement) (line temp_file directory dir root f l2 : PyStr) (dark : Bool),
      (fs.existsPath (joinPath dir f) = true →
        resolve_include fs dir root f l2 = .ok (joinPath dir f)) ∧
      (fs.existsPath (joinPath dir f) = false →
        fs.existsPath (joinPath root f) = true →
        resolve_include fs dir root f l2 = .ok (joinPath root f)) ∧
      (fs.existsPath (joinPath dir f) = false →
        fs.existsPath (joinPath root f) = false →
        resolve_include fs dir root f l2 =
          .error (pys "Include could not be resolved: " ++ l2)) ∧
      (matchIncludeUrl line = false → matchIncludeSub line = false →
        matchInclude line = true →
        ∀ g, g = incTarget cfg dark (pyRStrip (pyDrop 9 line)) →
        pyStartsWith (pys "http") g = false → pyStartsWith (pys "<") g = false →
        readIncludeLine cfg fs flatten d line temp_file directory dark =
          (match resolve_include fs directory d.root_dir g line with
           | .ok p =>
             (match read_incl_line_file fs flatten d temp_file dark p with
              | .error (.fnfe _) => .ok (d, temp_file)
              | r => r)
           | .error msg => .error (.exc msg))) := by
  intro cfg fs flatten d line temp_file directory dir root f l2 dark
  refine ⟨?_, ?_, ?_, ?_⟩
  · intro h1
    simp [resolve_include, h1]
  · intro h1 h2
    simp [resolve_include, h1, h2]
  · intro h1 h2
    simp [resolve_include, h1, h2]
  · intro hu hs hi g hg h1 h2
    subst hg
    simp only [readIncludeLine, hu, hs, hi, h1, h2, Bool.false_eq_true, if_false, if_true,
      Bool.or_self, Bool.false_or, Bool.or_false]

/-- Witness for C5: primary resolution when the local-relative path
exists, and the descriptive failure when neither candidate exists. -/
theorem claim5_include_resolution_order_witness :
    (FileSys.existsPath fsDemo (joinPath (pys "dsrc") (pys "inc.puml")) = true) ∧
      resolve_include fsDemo (pys "dsrc") (pys "root") (pys "inc.puml")
        (pys "!include inc.puml") = .ok (joinPath (pys "dsrc") (pys "inc.puml")) ∧
      resolve_include fsDemo (pys "dsrc") (pys "root") (pys "nope.puml")
        (pys "!include nope.puml") =
        .error (pys "Include could not be resolved: " ++ pys "!include nope.puml") :=
  ⟨by decide,
   (claim5_include_resolution_order cfgLocalDemo fsDemo flattenUnused dGoodDemo [] [] []
      (pys "dsrc") (pys "root") (pys "inc.puml") (pys "!include inc.puml") false).1
     (by decide),
   (claim5_include_resolution_order cfgLocalDemo fsDemo flattenUnused dGoodDemo [] [] []
      (pys "dsrc") (pys "root") (pys "nope.puml") (pys "!include nope.puml") false).2.2.1
     (by decide) (by decide)⟩

/-- C6.  If the compression/encoding step of `_readFile` raises, the
function logs, degrades the token to the empty string and returns
normally (an `.ok` result), so the pipeline continues to the render
step instead of aborting. -/
theorem claim6_encode_failure_nonfatal :
    ∀ (cfg : PluginConfig) (fs : FileSys) (fuel : Nat) (d d1 : PuElement)
      (dark : Bool) (t e : PyStr),
      readFileRecursively cfg fs fuel d d.src_file d.directory dark = .ok (d1, t) →
      encodeToken t = .error e →
      readFile cfg fs fuel d dark = .ok { d1 with b64encoded := [] } := by
  intro cfg fs fuel d d1 dark t e h1 h2
  simp [readFile, h1, h2]

/-- Witness for C6 at a diagram whose flattened text cannot be UTF-8
encoded: `_readFile` still returns normally with an empty token. -/
theorem claim6_encode_failure_nonfatal_witness :
    (readFileRecursively cfgLocalDemo fsDemo 3 dSurDemo dSurDemo.src_file
        dSurDemo.directory false = .ok (dSurDemo, [55296])) ∧
      (encodeToken [55296] =
        .error (pys "UnicodeEncodeError: surrogates not allowed")) ∧
      readFile cfgLocalDemo fsDemo 3 dSurDemo false =
        .ok { dSurDemo with b64encoded := [] } :=
  ⟨by decide, by decide,
   claim6_encode_failure_nonfatal cfgLocalDemo fsDemo 3 dSurDemo dSurDemo false
     [55296] (pys "UnicodeEncodeError: surrogates not allowed") (by decide) (by decide)⟩

/-- Counterexample for C9: the malformed directive `!includesub
foo.puml` does not abort only its own diagram — the batch processes a
well-formed diagram on its own, but aborts it when the malformed one
comes first in the same batch (no per-diagram isolation in
`on_pre_build`). -/
theorem claim9_abort_counterexample :
    processBatch cfgLocalDemo fsDemo respUnused ppOk (some (pys "PNG")) 9
        [dBadDemo, dGoodDemo] =
      .error (.exc
        (pys "Invalid !includesub syntax. Expected: !includesub <filepath>!<sub_name>")) ∧
    (processBatch cfgLocalDemo fsDemo respUnused ppOk (some (pys "PNG")) 9
        [dGoodDemo]).isOk = true := by
  exact ⟨by decide, by decide⟩

/-- C9 (amended).  A `!includesub` line missing the `!<subname>`
separator raises the descriptive format error, which propagates to the
caller; since `on_pre_build` has no per-diagram handler, it aborts the
entire batch (not only that diagram). -/
theorem claim9_malformed_includesub_amended :
    ∀ (cfg : PluginConfig) (fs : FileSys)
      (flatten : PuElement → List PyStr → PyStr → Bool → Except PyErr (PuElement × PyStr))
      (d : PuElement) (line temp_file directory : PyStr) (dark : Bool),
      (matchIncludeUrl line = false → matchIncludeSub line = true →
        (pySplitBang (pyStrip (pyDrop 11 line))).length ≠ 2 →
        readIncludeLine cfg fs flatten d line temp_file directory dark =
          .error (.exc
            (pys "Invalid !includesub syntax. Expected: !includesub <filepath>!<sub_name>"))) ∧
      (∀ (resp : PyStr → Except PyStr (Nat × PyStr)) (pp : PyStr → Except PyStr PyStr)
        (localGen : Option PyStr) (fuel : Nat) (d0 : PuElement) (rest : List PuElement)
        (e0 : PyErr),
        processDiagram cfg fs resp pp localGen fuel d0 = .error e0 →
        processBatch cfg fs resp pp localGen fuel (d0 :: rest) = .error e0) := by
  intro cfg fs flatten d line temp_file directory dark
  constructor
  · intro hu hs hlen
    simp only [readIncludeLine, hu, hs, Bool.false_eq_true, if_false, if_true]
    cases hsp : pySplitBang (pyStrip (pyDrop 11 line)) with
    | nil => rfl
    | cons a tl =>
      cases tl with
      | nil => rfl
      | cons b tl2 =>
        cases tl2 with
        | nil => exact absurd (by rw [hsp]; rfl) hlen
        | cons c tl3 => rfl
  · intro resp pp localGen fuel d0 rest e0 h
    simp [processBatch, h]

/-- Witness for C9 (amended): the malformed line raises the format
error, and a diagram-level error aborts a two-diagram batch. -/
theorem claim9_malformed_includesub_amended_witness :
    (readIncludeLine cfgLocalDemo fsDemo flattenUnused dBadDemo
        (pys "!includesub foo.puml") [] (pys "dsrc") false =
      .error (.exc
        (pys "Invalid !includesub syntax. Expected: !includesub <filepath>!<sub_name>"))) ∧
      processBatch cfgLocalDemo fsDemo respUnused ppOk (some (pys "PNG")) 9
          (dBadDemo :: [dGoodDemo]) =
        .error (.exc
          (pys "Invalid !includesub syntax. Expected: !includesub <filepath>!<sub_name>")) :=
  ⟨(claim9_malformed_includesub_amended cfgLocalDemo fsDemo flattenUnused dBadDemo
      (pys "!includesub foo.puml") [] (pys "dsrc") false).1
     (by decide) (by decide) (by decide),
   (claim9_malformed_includesub_amended cfgLocalDemo fsDemo flattenUnused dBadDemo
      (pys "!includesub foo.puml") [] (pys "dsrc") false).2 respUnused ppOk
     (some (pys "PNG")) 9 dBadDemo [dGoodDemo] _ (by decide)⟩

/-- C3 (failing evaluation).  A well-formed `!includesub inc.puml!X`
directive whose target exists (in both candidate directories) and
contains a `!startsub X` block — whose strict between-markers content
is exactly `alpha` — does not substitute that content: the five-argument
call to the four-parameter `_readFileRecursively` at line 446 raises a
`TypeError` instead. -/
theorem claim3_includesub_typeerror :
    (FileSys.existsPath fsDemo (joinPath (pys "dsrc") (pys "inc.puml")) = true) ∧
      (extractSub [pys "!startsub X\n", pys "alpha\n", pys "!endsub\n"] (pys "X") =
        [pys "alpha"]) ∧
      readIncludeLine cfgLocalDemo fsDemo
          (readFileRecursively cfgLocalDemo fsDemo 5) dGoodDemo
          (pys "!includesub inc.puml!X") [] (pys "dsrc") false =
        .error (.typeError
          (pys "_readFileRecursively takes 5 positional arguments but 6 were given")) := by
  exact ⟨by decide, by decide, by decide⟩

/-- C4 (failing evaluation).  In server mode, a non-200 response makes
`_call_server` return with no file written (only the request was
issued); `_convert` then evaluates `content.decode("utf-8")` on the
`None` that `_call_server` always returns, raising an `AttributeError`
that propagates and aborts the whole batch (the second diagram is never
processed). -/
theorem claim4_server_non200_crash :
    (needs_conversion dStaleDemo false = true) ∧
      (call_server cfgServerDemo resp500Demo ppOk dStaleDemo (pys "o/a.png") =
        .ok [.serverRequest (pys "S/png/T")]) ∧
      (convert cfgServerDemo resp500Demo ppOk none dStaleDemo false =
        ([.serverRequest (pys "S/png/T")],
         some (.attrError (pys "NoneType object has no attribute decode")))) ∧
      processBatch cfgServerDemo fsDemo resp500Demo ppOk none 9 [dGoodDemo, dBadDemo] =
        .error (.attrError (pys "NoneType object has no attribute decode")) := by
  exact ⟨by decide, by decide, by decide, by decide⟩

/-- Any successful `runPasses` run contains both the normal and the
dark pass in its trace. -/
theorem runPasses_shape (cfg : PluginConfig) (fs : FileSys)
    (resp : PyStr → Except PyStr (Nat × PyStr)) (pp : PyStr → Except PyStr PyStr)
    (localGen : Option PyStr) (fuel : Nat) (d : PuElement)
    (h : (runPasses cfg fs resp pp localGen fuel d).isOk = true) :
    ∃ d2 a1 a2, runPasses cfg fs resp pp localGen fuel d =
      .ok (d2, Action.readPass false :: a1 ++ Action.readPass true :: a2) := by
  unfold runPasses at h ⊢
  rcases h1 : readFile cfg fs fuel d false with e | d1 <;> simp only [h1] at h ⊢
  · simp [Except.isOk, Except.toBool] at h
  · rcases h2 : convert cfg resp pp localGen d1 false with ⟨a1, oe⟩
    cases oe with
    | some e => simp [h2, Except.isOk, Except.toBool] at h
    | none =>
      simp only [h2] at h ⊢
      rcases h3 : readFile cfg fs fuel d1 true with e | d2 <;> simp only [h3] at h ⊢
      · simp [Except.isOk, Except.toBool] at h
      · rcases h4 : convert cfg resp pp localGen d2 true with ⟨a2, oe2⟩
        cases oe2 with
        | some e => simp [h4, Except.isOk, Except.toBool] at h
        | none =>
          simp only [h4] at h ⊢
          exact ⟨d2, a1, a2, rfl⟩

/-- C7 (counterexample).  With `theme_enabled = false`, a stale diagram
is still processed with a dark pass: the trace contains the dark
resolution pass and the dark local render, refuting that the dark pass
runs only when `theme_enabled` is true. -/
theorem claim7_dark_pass_counterexample :
    cfgLocalDemo.theme_enabled = false ∧
      (processDiagram cfgLocalDemo fsDemo respUnused ppOk (some (pys "PNG")) 9
          dGoodDemo).toOption.map Prod.snd =
        some [Action.readPass false, Action.localRender false false,
          Action.fileWrite (pys "o/a.png") (pys "PNG"),
          Action.readPass true, Action.localRender true false,
          Action.fileWrite (pys "o/a_dark.png") (pys "PNG")] := by
  exact ⟨rfl, by decide⟩

/-- C7 (amended).  Both theme passes run for every diagram regardless
of `theme_enabled`: every successful per-diagram run has a trace of the
form normal pass followed by dark pass; `theme_enabled` only selects
(in local render mode) whether the flattened temporary file is the
renderer input. -/
theorem claim7_dark_pass_amended :
    ∀ (cfg : PluginConfig) (fs : FileSys)
      (resp : PyStr → Except PyStr (Nat × PyStr)) (pp : PyStr → Except PyStr PyStr)
      (localGen : Option PyStr) (fuel : Nat) (d0 : PuElement),
      (processDiagram cfg fs resp pp localGen fuel d0).isOk = true →
      (∃ d2 a1 a2, processDiagram cfg fs resp pp localGen fuel d0 =
          .ok (d2, Action.readPass false :: a1 ++ Action.readPass true :: a2)) ∧
      (∀ (d : PuElement) (dark : Bool) (gen : PyStr),
        needs_conversion d dark = true → cfg.render = pys "local" →
        convert cfg resp pp (some gen) d dark =
          ([Action.localRender dark cfg.theme_enabled,
            Action.fileWrite (if dark then d.out_file_dark else d.out_file)
              (svg_postprocess cfg pp gen)], none)) := by
  intro cfg fs resp pp localGen fuel d0 h
  constructor
  · unfold processDiagram at h ⊢
    rcases hf : fs.find? (joinPath d0.directory d0.file) with _ | entry
    · rw [hf] at h
      simp [Except.isOk, Except.toBool] at h
    · rw [hf] at h
      exact runPasses_shape cfg fs resp pp localGen fuel _ h
  · intro d dark gen h1 h2
    simp [convert, h1, h2]

/-- Witness for C7 (amended) at a concrete stale diagram in local mode. -/
theorem claim7_dark_pass_amended_witness :
    ((processDiagram cfgLocalDemo fsDemo respUnused ppOk (some (pys "PNG")) 9
        dGoodDemo).isOk = true) ∧
      (∃ d2 a1 a2, processDiagram cfgLocalDemo fsDemo respUnused ppOk (some (pys "PNG")) 9
          dGoodDemo =
        .ok (d2, Action.readPass false :: a1 ++ Action.readPass true :: a2)) :=
  ⟨by decide,
   (claim7_dark_pass_amended cfgLocalDemo fsDemo respUnused ppOk (some (pys "PNG")) 9
      dGoodDemo (by decide)).1⟩

/-- C8 (counterexample).  With `prettify_svg = false` and svg output,
the post-processing step still runs (the written content is the
pretty-printer output, not the raw body): the pretty-print step is not
gated on `prettify_svg`. -/
theorem claim8_prettify_counterexample :
    cfgSvgDemo.prettify_svg = false ∧
      svg_postprocess cfgSvgDemo ppPretty (pys "RAW") = pys "PRETTY" ∧
      (pys "PRETTY" : PyStr) ≠ pys "RAW" ∧
      call_server cfgSvgDemo (fun _ => .ok (200, pys "RAW")) ppPretty dStaleDemo
          (pys "o/a.svg") =
        .ok [Action.serverRequest (pys "S/svg/T"),
          Action.fileWrite (joinPath (pys "o") (pys "o/a.svg")) (pys "PRETTY")] := by
  exact ⟨rfl, by decide, by decide, by decide⟩

/-- C8 (amended).  The markup pretty-print post-processing is applied
if and only if the configured `output_format` is `svg` — the
`prettify_svg` option is never consulted — and a pretty-printing
failure falls back to writing the raw content. -/
theorem claim8_svg_gating_amended :
    ∀ (cfg : PluginConfig) (pp : PyStr → Except PyStr PyStr) (content : PyStr),
      (cfg.output_format = pys "svg" → ∀ f, pp content = .ok f →
        svg_postprocess cfg pp content = f) ∧
      (cfg.output_format = pys "svg" → ∀ e, pp content = .error e →
        svg_postprocess cfg pp content = content) ∧
      (cfg.output_format ≠ pys "svg" → svg_postprocess cfg pp content = content) ∧
      (∀ b, svg_postprocess { cfg with prettify_svg := b } pp content =
        svg_postprocess cfg pp content) ∧
      (∀ (resp : PyStr → Except PyStr (Nat × PyStr)) (d : PuElement) (out_file : PyStr),
        resp (server_url cfg d) = .ok (200, content) →
        call_server cfg resp pp d out_file =
          .ok [Action.serverRequest (server_url cfg d),
            Action.fileWrite (joinPath d.out_dir out_file)
              (svg_postprocess cfg pp content)]) := by
  intro cfg pp content
  refine ⟨?_, ?_, ?_, ?_, ?_⟩
  · intro hfmt f hpp
    simp [svg_postprocess, hfmt, hpp]
  · intro hfmt e hpp
    simp [svg_postprocess, hfmt, hpp]
  · intro hfmt
    simp [svg_postprocess, hfmt]
  · intro b
    rfl
  · intro resp d out_file h
    simp [call_server, h]

/-- Witness for C8 (amended): failure fallback with svg output, and
independence from `prettify_svg`, at concrete inputs. -/
theorem claim8_svg_gating_amended_witness :
    (cfgSvgDemo.output_format = pys "svg") ∧
      (ppFail (pys "RAW") = .error (pys "parse error")) ∧
      svg_postprocess cfgSvgDemo ppFail (pys "RAW") = pys "RAW" :=
  ⟨by decide, rfl,
   (claim8_svg_gating_amended cfgSvgDemo ppFail (pys "RAW")).2.1 (by decide)
     (pys "parse error") rfl⟩

/-! Helper lemmas for the frame property C10: no stage of the resolver
or the passes writes to `src_file` (the Python code flattens a copy of
the lines, line 278). -/

/-- `_read_incl_sub` never returns normally (the arity bug raises first). -/
theorem read_incl_sub_ne_ok (fs : FileSys) (d : PuElement) (tf : PyStr) (dk : Bool)
    (p sn : PyStr) (r : PuElement × PyStr) : read_incl_sub fs d tf dk p sn ≠ .ok r := by
  intro h
  simp only [read_incl_sub] at h
  rcases hf : fs.find? p with _ | e <;> rw [hf] at h <;> exact Except.noConfusion h

/-- `_read_incl_line_file` preserves `src_file` when its recursive
flatten continuation does. -/
theorem read_incl_line_file_src (fs : FileSys)
    (flatten : PuElement → List PyStr → PyStr → Bool → Except PyErr (PuElement × PyStr))
    (d : PuElement) (tf : PyStr) (dk : Bool) (p : PyStr) (r : PuElement × PyStr)
    (hf : ∀ d1 ls dir dk2 r1, flatten d1 ls dir dk2 = .ok r1 → r1.1.src_file = d1.src_file)
    (h : read_incl_line_file fs flatten d tf dk p = .ok r) :
    r.1.src_file = d.src_file := by
  simp only [read_incl_line_file] at h
  rcases hfind : fs.find? p with _ | e <;> rw [hfind] at h
  · exact Except.noConfusion h
  · have h1 := hf _ _ _ _ _ h
    rw [h1]
    split <;> rfl

/-- `_readIncludeLine` preserves `src_file` when its recursive flatten
continuation does. -/
theorem readIncludeLine_src (cfg : PluginConfig) (fs : FileSys)
    (flatten : PuElement → List PyStr → PyStr → Bool → Except PyErr (PuElement × PyStr))
    (d : PuElement) (line tf directory : PyStr) (dark : Bool) (r : PuElement × PyStr)
    (hf : ∀ d1 ls dir dk2 r1, flatten d1 ls dir dk2 = .ok r1 → r1.1.src_file = d1.src_file)
    (h : readIncludeLine cfg fs flatten d line tf directory dark = .ok r) :
    r.1.src_file = d.src_file := by
  unfold readIncludeLine at h
  by_cases hu : matchIncludeUrl line = true
  · rw [if_pos hu] at h
    cases h; rfl
  · rw [if_neg hu] at h
    by_cases hs : matchIncludeSub line = true
    · rw [if_pos hs] at h
      rcases hsp : pySplitBang (pyStrip (pyDrop 11 line)) with _ | ⟨f0, tl⟩
      · simp only [hsp] at h
        exact Except.noConfusion h
      · rcases tl with _ | ⟨sn, tl2⟩
        · simp only [hsp] at h
          exact Except.noConfusion h
        · rcases tl2 with _ | ⟨x, tl3⟩
          · simp only [hsp] at h
            rcases hA : read_incl_sub fs d tf dark
                (joinPath directory (incTarget cfg dark f0)) sn with e1 | r1
            · simp only [hA] at h
              rcases hB : read_incl_sub fs d tf dark
                  (joinPath d.root_dir (incTarget cfg dark f0)) sn with e2 | r2
              · simp only [hB] at h
                exact Except.noConfusion h
              · exact absurd hB (read_incl_sub_ne_ok _ _ _ _ _ _ _)
            · exact absurd hA (read_incl_sub_ne_ok _ _ _ _ _ _ _)
          · simp only [hsp] at h
            exact Except.noConfusion h
    · rw [if_neg hs] at h
      by_cases hi : matchInclude line = true
      · rw [if_pos hi] at h
        by_cases hh : (pyStartsWith (pys "http") (incTarget cfg dark (pyRStrip (pyDrop 9 line))) ||
            pyStartsWith (pys "<") (incTarget cfg dark (pyRStrip (pyDrop 9 line)))) = true
        · rw [if_pos hh] at h
          cases h; rfl
        · rw [if_neg hh] at h
          rcases hr : resolve_include fs directory d.root_dir
              (incTarget cfg dark (pyRStrip (pyDrop 9 line))) line with msg | p
          · simp only [hr] at h
            exact Except.noConfusion h
          · simp only [hr] at h
            rcases hrf : read_incl_line_file fs flatten d tf dark p with e | r1
            · rcases e with m | m | m | m <;> simp only [hrf] at h
              · cases h; rfl
              · exact Except.noConfusion h
              · exact Except.noConfusion h
              · exact Except.noConfusion h
            · simp only [hrf] at h
              cases h
              exact read_incl_line_file_src fs flatten d tf dark p _ hf hrf
      · rw [if_neg hi] at h
        exact Except.noConfusion h

/-- The include-processing loop preserves `src_file` when its handler
does. -/
theorem processIncludes_src
    (handler : PuElement → PyStr → PyStr → PyStr → Bool → Except PyErr (PuElement × PyStr))
    (hh : ∀ d1 l tf dir2 dk2 r1, handler d1 l tf dir2 dk2 = .ok r1 →
      r1.1.src_file = d1.src_file) :
    ∀ (lines : List PyStr) (d : PuElement) (dir : PyStr) (dk : Bool)
      (r : PuElement × List PyStr),
      processIncludes handler d lines dir dk = .ok r → r.1.src_file = d.src_file
  | [], d, dir, dk, r => fun h => by
    simp only [processIncludes] at h
    cases h
    rfl
  | l :: rest, d, dir, dk, r => fun h => by
    unfold processIncludes at h
    split at h
    · split at h
      · exact Except.noConfusion h
      · next d1 content heq =>
        split at h
        · exact Except.noConfusion h
        · next d2 rs heq2 =>
          cases h
          have e1 := hh _ _ _ _ _ _ heq
          have e2 := processIncludes_src handler hh rest d1 dir dk _ heq2
          rw [e2, e1]
    · split at h
      · exact Except.noConfusion h
      · next d2 rs heq2 =>
        cases h
        exact processIncludes_src handler hh rest d dir dk (d2, rs) heq2

/-- `_readFileRecursively` preserves `src_file`. -/
theorem readFileRecursively_src (cfg : PluginConfig) (fs : FileSys) :
    ∀ (fuel : Nat) (d : PuElement) (lines : List PyStr) (dir : PyStr) (dk : Bool)
      (r : PuElement × PyStr),
      readFileRecursively cfg fs fuel d lines dir dk = .ok r → r.1.src_file = d.src_file
  | 0, d, lines, dir, dk, r => fun h => by
    simp only [readFileRecursively] at h
    exact Except.noConfusion h
  | fuel + 1, d, lines, dir, dk, r => fun h => by
    unfold readFileRecursively at h
    split at h
    · exact Except.noConfusion h
    · next d1 ls heq =>
      cases h
      exact processIncludes_src _
        (fun d2 l tf dir2 dk2 r2 h2 =>
          readIncludeLine_src cfg fs _ d2 l tf dir2 dk2 r2
            (fun d3 ls3 dir3 dk3 r3 h3 =>
              readFileRecursively_src cfg fs fuel d3 ls3 dir3 dk3 r3 h3) h2)
        lines d dir dk _ heq

/-- `_readFile` preserves `src_file`. -/
theorem readFile_src (cfg : PluginConfig) (fs : FileSys) (fuel : Nat) (d : PuElement)
    (dark : Bool) (d1 : PuElement) (h : readFile cfg fs fuel d dark = .ok d1) :
    d1.src_file = d.src_file := by
  unfold readFile at h
  split at h
  · exact Except.noConfusion h
  · next dX t heq =>
    have hs := readFileRecursively_src cfg fs fuel d d.src_file d.directory dark (dX, t) heq
    split at h
    · next tok heq2 => cases h; exact hs
    · next e heq2 => cases h; exact hs

/-- `runPasses` (the two theme passes) preserves `src_file`. -/
theorem runPasses_src (cfg : PluginConfig) (fs : FileSys)
    (resp : PyStr → Except PyStr (Nat × PyStr)) (pp : PyStr → Except PyStr PyStr)
    (localGen : Option PyStr) (fuel : Nat) (d : PuElement) (r : PuElement × List Action)
    (h : runPasses cfg fs resp pp localGen fuel d = .ok r) : r.1.src_file = d.src_file := by
  unfold runPasses at h
  split at h
  · exact Except.noConfusion h
  · next d1 heq1 =>
    split at h
    · exact Except.noConfusion h
    · split at h
      · exact Except.noConfusion h
      · next d2 heq3 =>
        split at h
        · exact Except.noConfusion h
        · cases h
          rw [readFile_src cfg fs fuel d1 true d2 heq3,
            readFile_src cfg fs fuel d false d1 heq1]

/-- `_search_start_tag` preserves `src_file` (its scanning loop only
rewrites output names). -/
theorem search_start_tag_go_src (cfg : PluginConfig) (od : PyStr) :
    ∀ (ls : List PyStr) (d : PuElement) (r : PuElement),
      search_start_tag_go cfg od d ls = some r → r.src_file = d.src_file
  | [], d, r => fun h => by
    simp only [search_start_tag_go] at h
    exact Option.noConfusion h
  | l :: rest, d, r => fun h => by
    unfold search_start_tag_go at h
    by_cases hst : pyStartsWith (pys "@startuml") (pyStrip l) = true
    · rw [if_pos hst] at h
      rcases hsp : pySplitFirstWS (pyStrip l) with _ | ⟨a, tl⟩
      · simp only [hsp] at h
        exact search_start_tag_go_src cfg od rest d r h
      · rcases tl with _ | ⟨b, tl2⟩
        · simp only [hsp] at h
          exact search_start_tag_go_src cfg od rest d r h
        · rcases tl2 with _ | ⟨c, tl3⟩
          · simp only [hsp] at h
            cases h; rfl
          · simp only [hsp] at h
            exact search_start_tag_go_src cfg od rest d r h
    · rw [if_neg hst] at h
      exact search_start_tag_go_src cfg od rest d r h

/-- `_build_out_filename` preserves `src_file`. -/
theorem build_out_filename_src (cfg : PluginConfig) (d : PuElement) :
    (build_out_filename cfg d).src_file = d.src_file := by
  unfold build_out_filename
  split <;> rfl

/-- C10.  Flattening and encoding leave the raw source lines unchanged:
`_readFile` (which operates on a copy of the lines) returns a
descriptor with the same `src_file` for either theme pass, and after a
full per-diagram run `src_file` still equals the lines read from disk
at discovery time — so the dark pass sees the same input as the normal
pass. -/
theorem claim10_src_file_frame :
    (∀ (cfg : PluginConfig) (fs : FileSys) (fuel : Nat) (d : PuElement) (dark : Bool)
        (d1 : PuElement),
      readFile cfg fs fuel d dark = .ok d1 → d1.src_file = d.src_file) ∧
    (∀ (cfg : PluginConfig) (fs : FileSys)
        (resp : PyStr → Except PyStr (Nat × PyStr)) (pp : PyStr → Except PyStr PyStr)
        (localGen : Option PyStr) (fuel : Nat) (d0 : PuElement) (entry : FileEntry)
        (d2 : PuElement) (tr : List Action),
      fs.find? (joinPath d0.directory d0.file) = some entry →
      processDiagram cfg fs resp pp localGen fuel d0 = .ok (d2, tr) →
      d2.src_file = entry.lines) := by
  constructor
  · exact fun cfg fs fuel d dark d1 h => readFile_src cfg fs fuel d dark d1 h
  · intro cfg fs resp pp localGen fuel d0 entry d2 tr hfind h
    unfold processDiagram at h
    rw [hfind] at h
    have h2 : runPasses cfg fs resp pp localGen fuel
        (build_mtimes fs
          (match search_start_tag cfg { d0 with src_file := entry.lines } with
           | some d1 => d1
           | none => build_out_filename cfg { d0 with src_file := entry.lines })) =
        .ok (d2, tr) := h
    have h3 := runPasses_src cfg fs resp pp localGen fuel _ _ h2
    rw [h3]
    show (match search_start_tag cfg { d0 with src_file := entry.lines } with
      | some d1 => d1
      | none => build_out_filename cfg { d0 with src_file := entry.lines }).src_file =
        entry.lines
    rcases hs : search_start_tag cfg { d0 with src_file := entry.lines } with _ | dd
    · rw [build_out_filename_src]
    · have h4 : dd.src_file = ({ d0 with src_file := entry.lines } : PuElement).src_file :=
        search_start_tag_go_src cfg _ _ _ _ hs
      exact h4

/-- Witness for C10: a concrete pass preserves `src_file`, and a full
per-diagram run ends with `src_file` equal to the lines on disk. -/
theorem claim10_src_file_frame_witness :
    (readFile cfgLocalDemo fsDemo 3 dSurDemo false =
        .ok { dSurDemo with b64encoded := [] }) ∧
      ({ dSurDemo with b64encoded := ([] : PyStr) } : PuElement).src_file =
        dSurDemo.src_file ∧
      (FileSys.find? fsDemo (joinPath (pys "dsrc") (pys "s.puml")) =
        some { mtime := 3, lines := [[55296]] }) ∧
      (processDiagram cfgLocalDemo fsDemo respUnused ppOk (some (pys "PNG")) 9
          dSrcSurDemo = .ok (d2SurDemo, trSurDemo)) ∧
      d2SurDemo.src_file = FileEntry.lines { mtime := 3, lines := [[55296]] } :=
  ⟨by decide, claim10_src_file_frame.1 cfgLocalDemo fsDemo 3 dSurDemo false _ (by decide),
   by decide,
   by decide,
   claim10_src_file_frame.2 cfgLocalDemo fsDemo respUnused ppOk (some (pys "PNG")) 9
     dSrcSurDemo { mtime := 3, lines := [[55296]] } d2SurDemo trSurDemo (by decide)
     (by decide)⟩

end PlantUml
